import Mathlib

/-!
Shallow embedding of the VentSim ventilator/lung simulation core.

The numeric model is ℚ (the JavaScript source computes on IEEE doubles; all
claims here concern the exact arithmetic the formulas denote).  JavaScript's
`Math.exp` is abstracted by an explicit function argument `expFn : ℚ → ℚ`
wherever the source calls it, so every definition stays executable; theorems
that depend on properties of the exponential take them as hypotheses on the
value of `expFn`.
-/

namespace VentSim

/-- Truncation toward zero on rationals, the rounding used by JavaScript's
`%` operator on numbers (fmod semantics). -/
def ratTrunc (q : ℚ) : ℤ := if 0 ≤ q then ⌊q⌋ else ⌈q⌉

/-- JavaScript remainder `a % b` on numbers: `a - b * truncate (a / b)`. -/
def jsMod (a b : ℚ) : ℚ := a - b * (ratTrunc (a / b) : ℚ)

/-- Respiratory phase, the `currentPhase` string field of `VentilatorModel`. -/
inductive Phase where
  | inspiration
  | expiration
  deriving DecidableEq

/-- Ventilator settings object of `VentilatorModel` (part_000). -/
structure VentSettings where
  mode : String
  pControl : ℚ
  peep : ℚ
  respiratoryRate : ℚ
  ieRatio : ℚ
  fio2 : ℚ
  triggerSensitivity : ℚ
  riseTime : ℚ
  deriving DecidableEq

/-- Default settings installed by the `VentilatorModel` constructor. -/
def defaultSettings : VentSettings :=
  { mode := "pressure-control", pControl := 20, peep := 5, respiratoryRate := 15,
    ieRatio := 0.5, fio2 := 0.5, triggerSensitivity := -2, riseTime := 100 }

/-- A JavaScript object spread `{...settings, ...newSettings}` supplies an
arbitrary subset of the fields; `none` means the field is absent. -/
structure SettingsPatch where
  mode : Option String := none
  pControl : Option ℚ := none
  peep : Option ℚ := none
  respiratoryRate : Option ℚ := none
  ieRatio : Option ℚ := none
  fio2 : Option ℚ := none
  triggerSensitivity : Option ℚ := none
  riseTime : Option ℚ := none

/-- Field-wise merge `{...s, ...p}`. -/
def mergeSettings (s : VentSettings) (p : SettingsPatch) : VentSettings :=
  { mode := p.mode.getD s.mode,
    pControl := p.pControl.getD s.pControl,
    peep := p.peep.getD s.peep,
    respiratoryRate := p.respiratoryRate.getD s.respiratoryRate,
    ieRatio := p.ieRatio.getD s.ieRatio,
    fio2 := p.fio2.getD s.fio2,
    triggerSensitivity := p.triggerSensitivity.getD s.triggerSensitivity,
    riseTime := p.riseTime.getD s.riseTime }

/-- State of the `VentilatorModel` class (part_000). -/
structure VentilatorModel where
  settings : VentSettings
  period : ℚ
  inspirationTime : ℚ
  expirationTime : ℚ
  currentTime : ℚ
  currentPhase : Phase
  phaseStartTime : ℚ
  deriving DecidableEq

/-- The `VentilatorModel` constructor. -/
def VentilatorModel.init : VentilatorModel :=
  let s := defaultSettings
  let period := 60 / s.respiratoryRate
  let insp := period * (1 / (1 + 1 / s.ieRatio))
  { settings := s, period := period, inspirationTime := insp,
    expirationTime := period - insp, currentTime := 0,
    currentPhase := Phase.expiration, phaseStartTime := 0 }

/-- Embedding of `VentilatorModel.updateSettings`: merge, then recompute the
derived timing.  The source performs no validation of the merged values. -/
def VentilatorModel.updateSettings (m : VentilatorModel) (p : SettingsPatch) :
    VentilatorModel :=
  let s := mergeSettings m.settings p
  let period := 60 / s.respiratoryRate
  let insp := period * (1 / (1 + 1 / s.ieRatio))
  { m with
    settings := s
    period := period
    inspirationTime := insp
    expirationTime := period - insp }

/-- Embedding of `VentilatorModel.calculateTargetPressure`.  The source method
mutates the phase bookkeeping, so the embedding returns the updated model
together with the returned pressure. -/
def VentilatorModel.calculateTargetPressure (m : VentilatorModel) (time : ℚ) :
    VentilatorModel × ℚ :=
  let m1 := { m with currentTime := time }
  let cycleTime := jsMod time m1.period
  if cycleTime < m1.inspirationTime then
    let m2 :=
      if m1.currentPhase ≠ Phase.inspiration then
        { m1 with
          currentPhase := Phase.inspiration
          phaseStartTime := time - cycleTime }
      else m1
    let riseTimeSec := m2.settings.riseTime / 1000
    let riseTimeFactor := min 1 (cycleTime / riseTimeSec)
    (m2, m2.settings.peep + m2.settings.pControl * riseTimeFactor)
  else
    let m2 :=
      if m1.currentPhase ≠ Phase.expiration then
        { m1 with
          currentPhase := Phase.expiration
          phaseStartTime := time - cycleTime + m1.inspirationTime }
      else m1
    (m2, m2.settings.peep)

/-- Return value of `VentilatorModel.getState`. -/
structure VentState where
  time : ℚ
  targetPressure : ℚ
  phase : Phase
  phaseTime : ℚ
  settings : VentSettings
  deriving DecidableEq

/-- Embedding of `VentilatorModel.getState`. -/
def VentilatorModel.getState (m : VentilatorModel) (time : ℚ) :
    VentilatorModel × VentState :=
  let r := m.calculateTargetPressure time
  (r.1, { time := time, targetPressure := r.2, phase := r.1.currentPhase,
          phaseTime := time - r.1.phaseStartTime, settings := r.1.settings })

/-- Patient parameter object of `BasicPatientModel`. -/
structure BasicParams where
  compliance : ℚ
  resistance : ℚ
  residualVolume : ℚ
  ibw : ℚ
  deriving DecidableEq

/-- Predicted lung volumes derived from ideal body weight. -/
structure CalcParams where
  predictedTLC : ℚ
  predictedVC : ℚ
  predictedRV : ℚ
  predictedFRC : ℚ
  deriving DecidableEq

/-- Subset-of-fields update object for `BasicPatientModel.updateParameters`. -/
structure ParamsPatch where
  compliance : Option ℚ := none
  resistance : Option ℚ := none
  residualVolume : Option ℚ := none
  ibw : Option ℚ := none

/-- Field-wise merge `{...parameters, ...newParameters}`. -/
def mergeParams (s : BasicParams) (p : ParamsPatch) : BasicParams :=
  { compliance := p.compliance.getD s.compliance,
    resistance := p.resistance.getD s.resistance,
    residualVolume := p.residualVolume.getD s.residualVolume,
    ibw := p.ibw.getD s.ibw }

/-- State of the `BasicPatientModel` class (single-compartment model). -/
structure BasicPatientModel where
  parameters : BasicParams
  calculatedParameters : CalcParams
  currentVolume : ℚ
  currentFlow : ℚ
  lastPressure : ℚ
  lastTime : ℚ
  deriving DecidableEq

/-- Embedding of `BasicPatientModel.updatePredictedValues` (the source fixes
`isMale = true`, so only the male branch is reachable). -/
def BasicPatientModel.updatePredictedValues (m : BasicPatientModel) :
    BasicPatientModel :=
  let ibw := m.parameters.ibw
  let calcd : CalcParams :=
    { predictedTLC := 7.99 * ibw, predictedVC := 4.5 * ibw,
      predictedRV := 1.31 * ibw, predictedFRC := 2.4 * ibw }
  { m with
    calculatedParameters := calcd
    parameters := { m.parameters with residualVolume := calcd.predictedFRC }
    currentVolume := calcd.predictedFRC }

/-- The `BasicPatientModel` constructor: default parameters, then
`updatePredictedValues`, then the remaining internal state. -/
def BasicPatientModel.init : BasicPatientModel :=
  let m0 : BasicPatientModel :=
    { parameters := { compliance := 50, resistance := 10, residualVolume := 1000, ibw := 70 },
      calculatedParameters :=
        { predictedTLC := 0, predictedVC := 0, predictedRV := 0, predictedFRC := 0 },
      currentVolume := 0, currentFlow := 0, lastPressure := 0, lastTime := 0 }
  let m1 := m0.updatePredictedValues
  { m1 with
    currentVolume := m1.parameters.residualVolume
    currentFlow := 0
    lastPressure := 0
    lastTime := 0 }

/-- Embedding of `BasicPatientModel.updateParameters`. -/
def BasicPatientModel.updateParameters (m : BasicPatientModel) (p : ParamsPatch) :
    BasicPatientModel :=
  let m1 := { m with parameters := mergeParams m.parameters p }
  if p.ibw.isSome then m1.updatePredictedValues else m1

/-- The `targetVolume` expression inside `BasicPatientModel.calculateLungState`,
exactly as written in the source:
`residualVolume + compliance * (pressure - residualVolume / compliance)`. -/
def BasicPatientModel.targetVolume (params : BasicParams) (pressure : ℚ) : ℚ :=
  params.residualVolume +
    params.compliance * (pressure - params.residualVolume / params.compliance)

/-- Return value of `BasicPatientModel.calculateLungState`. -/
structure BasicLungOut where
  volume : ℚ
  flow : ℚ
  pressure : ℚ
  time : ℚ
  parameters : BasicParams
  calculatedParameters : CalcParams
  tidalVolume : ℚ
  deriving DecidableEq

/-- Embedding of `BasicPatientModel.calculateLungState`.  `expFn x` stands for
the source's `Math.exp(x)`. -/
def BasicPatientModel.calculateLungState (expFn : ℚ → ℚ) (m : BasicPatientModel)
    (pressure time : ℚ) : BasicPatientModel × BasicLungOut :=
  let deltaTime := time - m.lastTime
  let m1 :=
    if 0 < deltaTime then
      let timeConstant := m.parameters.resistance * m.parameters.compliance * 0.001
      let tv := BasicPatientModel.targetVolume m.parameters pressure
      let volumeChange := (tv - m.currentVolume) * (1 - expFn (-deltaTime / timeConstant))
      { m with
        currentVolume := m.currentVolume + volumeChange
        currentFlow := volumeChange / deltaTime }
    else m
  let m2 :=
    { m1 with
      lastPressure := pressure
      lastTime := time }
  (m2, { volume := m2.currentVolume, flow := m2.currentFlow, pressure := pressure,
         time := time, parameters := m2.parameters,
         calculatedParameters := m2.calculatedParameters,
         tidalVolume := max 0 (m2.currentVolume - m2.parameters.residualVolume) })

/-- Health status of an alveolar unit (`pathology` string in the source:
"normal", "consolidated", "air-trapped"). -/
inductive Pathology where
  | normal
  | consolidated
  | airTrapped
  deriving DecidableEq

/-- One alveolar unit of the `AdvancedPatientModel`. -/
structure AlvUnit where
  id : ℕ
  position : ℚ
  openingPressure : ℚ
  closingPressure : ℚ
  compliance : ℚ
  isOpen : Bool
  volume : ℚ
  perfusion : ℚ
  pathology : Pathology
  deriving DecidableEq

/-- One healthy unit as pushed by `initializeHealthyLungs`; `dorsalPosition =
i / (numberOfUnits - 1)`. -/
def healthyUnit (numberOfUnits i : ℕ) : AlvUnit :=
  let dorsalPosition : ℚ := (i : ℚ) / ((numberOfUnits : ℚ) - 1)
  { id := i, position := dorsalPosition,
    openingPressure := 5 + dorsalPosition * 2,
    closingPressure := 2 + dorsalPosition * 2,
    compliance := 50 / (numberOfUnits : ℚ),
    isOpen := true, volume := 0,
    perfusion := 1 - 0.2 * dorsalPosition,
    pathology := Pathology.normal }

/-- The unit list built by `AdvancedPatientModel.initializeHealthyLungs`. -/
def healthyLungs (numberOfUnits : ℕ) : List AlvUnit :=
  (List.range numberOfUnits).map (healthyUnit numberOfUnits)

/-- Decorated unit returned inside `unitStates` by the advanced
`calculateLungState` (`{...unit, effectivePressure, flow}`). -/
structure UnitState where
  unit : AlvUnit
  effectivePressure : ℚ
  flow : ℚ
  deriving DecidableEq

/-- State of the `AdvancedPatientModel` class. -/
structure AdvancedPatientModel where
  alveolarUnits : List AlvUnit
  numberOfUnits : ℕ
  currentVolume : ℚ
  currentFlow : ℚ
  lastPressure : ℚ
  lastTime : ℚ
  unitStates : List UnitState
  residualVolume : ℚ
  deriving DecidableEq

/-- The `AdvancedPatientModel` constructor (calls
`initializeHealthyLungs`, which also sets `residualVolume = 1000`). -/
def AdvancedPatientModel.init (numberOfUnits : ℕ) : AdvancedPatientModel :=
  { alveolarUnits := healthyLungs numberOfUnits,
    numberOfUnits := numberOfUnits,
    currentVolume := 0, currentFlow := 0, lastPressure := 0, lastTime := 0,
    unitStates := [], residualVolume := 1000 }

/-- ARDS severity argument of `setupARDSModel`. -/
inductive Severity where
  | mild
  | moderate
  | severe
  deriving DecidableEq

/-- Entry of the `severityFactors` table. -/
structure SeverityFactor where
  openingFactor : ℚ
  closedUnitsPct : ℚ
  complianceFactor : ℚ
  deriving DecidableEq

/-- The `severityFactors` table in `setupARDSModel`. -/
def severityFactors : Severity → SeverityFactor
  | Severity.mild => { openingFactor := 1.5, closedUnitsPct := 0.2, complianceFactor := 0.7 }
  | Severity.moderate => { openingFactor := 2, closedUnitsPct := 0.4, complianceFactor := 0.5 }
  | Severity.severe => { openingFactor := 3, closedUnitsPct := 0.6, complianceFactor := 0.3 }

/-- Per-unit modification applied by `setupARDSModel`'s forEach body. -/
def ardsUnit (numberOfUnits : ℕ) (factor : SeverityFactor) (unit : AlvUnit) : AlvUnit :=
  let u :=
    { unit with
      openingPressure := (5 + unit.position * 5) * factor.openingFactor
      closingPressure := (2 + unit.position * 5) * factor.openingFactor
      compliance := 50 / (numberOfUnits : ℚ) * factor.complianceFactor }
  if u.position > 1 - factor.closedUnitsPct then
    { u with
      isOpen := false
      pathology := Pathology.consolidated
      compliance := u.compliance * 0.1 }
  else u

/-- Embedding of `AdvancedPatientModel.setupARDSModel`: start from fresh
healthy lungs, then modify every unit according to the severity factor. -/
def AdvancedPatientModel.setupARDSModel (m : AdvancedPatientModel)
    (severity : Severity) : AdvancedPatientModel :=
  let factor := severityFactors severity
  { m with
    alveolarUnits := (healthyLungs m.numberOfUnits).map (ardsUnit m.numberOfUnits factor)
    residualVolume := 1000 }

/-- Body of the `map` over alveolar units inside the advanced
`calculateLungState`: superimposed pressure, recruitment gate (strict
comparisons in this source file), then first-order volume update with the
fixed time constant 0.05 s.  `expFn x` stands for `Math.exp(x)`. -/
def advUnitStep (expFn : ℚ → ℚ) (pressure deltaTime : ℚ) (unit : AlvUnit) : UnitState :=
  let superimposedPressure := unit.position * 2
  let effectivePressure := pressure - superimposedPressure
  let isOpen1 : Bool :=
    if unit.isOpen = false ∧ effectivePressure > unit.openingPressure then true
    else if unit.isOpen = true ∧ effectivePressure < unit.closingPressure then false
    else unit.isOpen
  let u1 := { unit with isOpen := isOpen1 }
  let timeConstant : ℚ := 0.05
  let targetVolume : ℚ :=
    if u1.isOpen then u1.compliance * effectivePressure
    else if u1.pathology = Pathology.airTrapped then u1.volume * 0.9
    else 0
  let volumeChange := (targetVolume - u1.volume) * (1 - expFn (-deltaTime / timeConstant))
  let u2 := { u1 with volume := u1.volume + volumeChange }
  let unitFlow := volumeChange / deltaTime
  { unit := u2, effectivePressure := effectivePressure, flow := unitFlow }

/-- Return value of the advanced `calculateLungState`. -/
structure AdvLungOut where
  volume : ℚ
  flow : ℚ
  pressure : ℚ
  time : ℚ
  unitStates : List UnitState
  recruitedUnits : ℕ
  deriving DecidableEq

/-- Embedding of `AdvancedPatientModel.calculateLungState`.  When
`deltaTime ≤ 0` the source skips the unit update but still assigns
`currentVolume := totalVolume` and `currentFlow := totalFlow`, which then hold
their initial values `residualVolume` and `0`. -/
def AdvancedPatientModel.calculateLungState (expFn : ℚ → ℚ)
    (m : AdvancedPatientModel) (pressure time : ℚ) :
    AdvancedPatientModel × AdvLungOut :=
  let deltaTime := time - m.lastTime
  let m1 :=
    if 0 < deltaTime then
      let states := m.alveolarUnits.map (advUnitStep expFn pressure deltaTime)
      { m with
        alveolarUnits := states.map (fun s => s.unit)
        unitStates := states
        currentVolume := m.residualVolume + (states.map (fun s => s.unit.volume)).sum
        currentFlow := (states.map (fun s => s.flow)).sum }
    else
      { m with
        currentVolume := m.residualVolume
        currentFlow := 0 }
  let m2 :=
    { m1 with
      lastPressure := pressure
      lastTime := time }
  (m2, { volume := m2.currentVolume, flow := m2.currentFlow, pressure := pressure,
         time := time, unitStates := m2.unitStates,
         recruitedUnits := (m2.unitStates.filter (fun s => s.unit.isOpen)).length })

end VentSim

namespace SimCore

/-- Ventilator settings of `simulation-core.js` (module-level
`ventilatorSettings` object). -/
structure SCSettings where
  mode : String
  peep : ℚ
  pip : ℚ
  rate : ℚ
  ieRatio : ℚ
  tidalVolume : ℚ
  fio2 : ℚ
  triggerSensitivity : ℚ
  deriving DecidableEq

/-- Default `ventilatorSettings` of `simulation-core.js`. -/
def defaultSCSettings : SCSettings :=
  { mode := "PCV", peep := 5, pip := 20, rate := 15, ieRatio := 0.5,
    tidalVolume := 500, fio2 := 40, triggerSensitivity := 2 }

/-- Subset-of-fields update for `updateVentilatorSettings`. -/
structure SCSettingsPatch where
  mode : Option String := none
  peep : Option ℚ := none
  pip : Option ℚ := none
  rate : Option ℚ := none
  ieRatio : Option ℚ := none
  tidalVolume : Option ℚ := none
  fio2 : Option ℚ := none
  triggerSensitivity : Option ℚ := none

/-- Field-wise merge `{...ventilatorSettings, ...newSettings}`. -/
def mergeSCSettings (s : SCSettings) (p : SCSettingsPatch) : SCSettings :=
  { mode := p.mode.getD s.mode,
    peep := p.peep.getD s.peep,
    pip := p.pip.getD s.pip,
    rate := p.rate.getD s.rate,
    ieRatio := p.ieRatio.getD s.ieRatio,
    tidalVolume := p.tidalVolume.getD s.tidalVolume,
    fio2 := p.fio2.getD s.fio2,
    triggerSensitivity := p.triggerSensitivity.getD s.triggerSensitivity }

/-- Derived breath timing (milliseconds) computed by `calculateBreathTiming`. -/
structure Timing where
  totalBreathTime : ℚ
  inspirationTime : ℚ
  expirationTime : ℚ
  deriving DecidableEq

/-- Embedding of `calculateBreathTiming` in `simulation-core.js` (all times in
milliseconds). -/
def calculateBreathTiming (s : SCSettings) : Timing :=
  let totalBreathTime := 60 / s.rate * 1000
  let ieFraction := s.ieRatio / (s.ieRatio + 1)
  let inspirationTime := totalBreathTime * ieFraction
  { totalBreathTime := totalBreathTime,
    inspirationTime := inspirationTime,
    expirationTime := totalBreathTime - inspirationTime }

/-- Embedding of `updateVentilatorSettings` in `simulation-core.js`: merge the
patch, then recompute the timing; no validation is performed. -/
def updateVentilatorSettings (s : SCSettings) (p : SCSettingsPatch) :
    SCSettings × Timing :=
  let s1 := mergeSCSettings s p
  (s1, calculateBreathTiming s1)

/-- One lung unit of the `simulation-core.js` multi-compartment model. -/
structure SCUnit where
  id : ℕ
  position : ℚ
  openingPressure : ℚ
  closingPressure : ℚ
  compliance : ℚ
  isOpen : Bool
  volume : ℚ
  perfusion : ℚ
  deriving DecidableEq

/-- Body of the `forEach` over `lungUnits` in `updateLungUnits`
(`simulation-core.js`): superimposed pressure up to 5 cmH2O, recruitment gate
with non-strict comparisons, then the open/closed volume update.
`baseTimeConstant = resistance * compliance` (milliseconds), `numUnits =
lungUnits.length`, and `expFn x` stands for `Math.exp(x)`. -/
def updateLungUnit (expFn : ℚ → ℚ) (peep baseTimeConstant : ℚ) (numUnits : ℕ)
    (currentPressure deltaTime : ℚ) (unit : SCUnit) : SCUnit :=
  let superimposedPressure := unit.position * 5
  let effectivePressure := currentPressure - superimposedPressure
  let isOpen1 : Bool :=
    if unit.isOpen = false ∧ effectivePressure ≥ unit.openingPressure then true
    else if unit.isOpen = true ∧ effectivePressure ≤ unit.closingPressure then false
    else unit.isOpen
  let u1 := { unit with isOpen := isOpen1 }
  if u1.isOpen then
    let transpulmonaryPressure := effectivePressure - peep
    let targetVolume := transpulmonaryPressure * (u1.compliance / (numUnits : ℚ))
    let unitTimeConstant := baseTimeConstant * (0.8 + u1.position * 0.4)
    let volumeResponse := 1 - expFn (-deltaTime / unitTimeConstant)
    { u1 with volume := u1.volume + (targetVolume - u1.volume) * volumeResponse }
  else
    { u1 with volume := u1.volume * expFn (-deltaTime / 100) }

end SimCore

namespace VentSim

/-- The `patient` field of a recorded simulation state: either a basic-model
output object or an advanced-model output object (JavaScript is untyped; the
engine stores whichever the active model returned). -/
inductive PatientOut where
  | basic (out : BasicLungOut)
  | advanced (out : AdvLungOut)
  deriving DecidableEq

/-- One entry of `simulationData` (a combined state snapshot). -/
structure SimState where
  time : ℚ
  ventilator : VentState
  patient : PatientOut
  deriving DecidableEq

/-- State of the `VentilatorSimulation` orchestrator.  The browser timer
handle (`simulationInterval`) is not part of the embedding. -/
structure VentilatorSimulation where
  ventilator : VentilatorModel
  patient : BasicPatientModel
  useAdvancedModel : Bool
  advancedPatient : AdvancedPatientModel
  currentTime : ℚ
  timeStep : ℚ
  simulationData : List SimState
  isRunning : Bool
  deriving DecidableEq

/-- Embedding of `VentilatorSimulation.initializeData` (source name
`initializeData`): push one initial snapshot built from `getState(0)` and the
basic patient's parameters.  `getState` mutates the ventilator's phase
bookkeeping, which the embedding keeps. -/
def VentilatorSimulation.initData (s : VentilatorSimulation) : VentilatorSimulation :=
  let r := s.ventilator.getState 0
  let initialState : SimState :=
    { time := 0, ventilator := r.2,
      patient := PatientOut.basic
        { volume := s.patient.parameters.residualVolume, flow := 0,
          pressure := s.ventilator.settings.peep, time := 0,
          parameters := s.patient.parameters,
          calculatedParameters := s.patient.calculatedParameters,
          tidalVolume := 0 } }
  { s with
    ventilator := r.1
    simulationData := s.simulationData ++ [initialState] }

/-- The `VentilatorSimulation` constructor. -/
def VentilatorSimulation.construct : VentilatorSimulation :=
  VentilatorSimulation.initData
    { ventilator := VentilatorModel.init, patient := BasicPatientModel.init,
      useAdvancedModel := false, advancedPatient := AdvancedPatientModel.init 10,
      currentTime := 0, timeStep := 0.01, simulationData := [], isRunning := false }

/-- Embedding of `VentilatorSimulation.pause` (`clearInterval` is a browser
effect outside the model). -/
def VentilatorSimulation.pause (s : VentilatorSimulation) : VentilatorSimulation :=
  { s with isRunning := false }

/-- Embedding of `VentilatorSimulation.resetSimulation`: pause, zero the time,
clear the history, reconstruct the generator and the currently-active patient
model (the inactive one is retained), then `initializeData`. -/
def VentilatorSimulation.resetSimulation (s : VentilatorSimulation) :
    VentilatorSimulation :=
  let s1 := s.pause
  let s2 :=
    { s1 with
      currentTime := 0
      simulationData := []
      ventilator := VentilatorModel.init }
  let s3 :=
    if s2.useAdvancedModel = false then { s2 with patient := BasicPatientModel.init }
    else { s2 with advancedPatient := AdvancedPatientModel.init 10 }
  s3.initData

/-- Embedding of `VentilatorSimulation.setPatientModel`. -/
def VentilatorSimulation.setPatientModel (s : VentilatorSimulation)
    (useAdvanced : Bool) : VentilatorSimulation :=
  ({ s with useAdvancedModel := useAdvanced }).resetSimulation

/-- Embedding of `VentilatorSimulation.updateVentilatorSettings`. -/
def VentilatorSimulation.updateVentilatorSettings (s : VentilatorSimulation)
    (p : SettingsPatch) : VentilatorSimulation :=
  { s with ventilator := s.ventilator.updateSettings p }

/-- Embedding of `VentilatorSimulation.updatePatientParameters` for the
branches the claims exercise: the basic-model branch forwards to
`updateParameters`; in advanced mode, `patientType = "ARDS"` forwards to
`setupARDSModel` with `parameters.severity || 'moderate'` (passed here as the
separate `severity` argument).  The COPD branch calls `setupCOPDModel`, which
draws `Math.random()` per unit; no claim depends on it and it is omitted. -/
def VentilatorSimulation.updatePatientParameters (s : VentilatorSimulation)
    (parameters : ParamsPatch) (severity : Option Severity)
    (patientType : Option String) : VentilatorSimulation :=
  if s.useAdvancedModel = false then
    { s with patient := s.patient.updateParameters parameters }
  else if patientType = some "ARDS" then
    { s with
      advancedPatient :=
        s.advancedPatient.setupARDSModel (severity.getD Severity.moderate) }
  else s

/-- Embedding of `VentilatorSimulation.step`: advance time by `timeStep`, query
the generator, feed the pressure to the active patient model, record the
snapshot, and evict the oldest entry once the history exceeds
`maxDataPoints = 10 / timeStep`. -/
def VentilatorSimulation.step (expFn : ℚ → ℚ) (s : VentilatorSimulation) :
    VentilatorSimulation × SimState :=
  let currentTime := s.currentTime + s.timeStep
  let s1 := { s with currentTime := currentTime }
  let vr := s1.ventilator.getState currentTime
  let s2 := { s1 with ventilator := vr.1 }
  let pressure := vr.2.targetPressure
  let pr :=
    if s2.useAdvancedModel then
      let r := s2.advancedPatient.calculateLungState expFn pressure currentTime
      ({ s2 with advancedPatient := r.1 }, PatientOut.advanced r.2)
    else
      let r := s2.patient.calculateLungState expFn pressure currentTime
      ({ s2 with patient := r.1 }, PatientOut.basic r.2)
  let s3 := pr.1
  let state : SimState := { time := currentTime, ventilator := vr.2, patient := pr.2 }
  let data := s3.simulationData ++ [state]
  let maxDataPoints := 10 / s3.timeStep
  let data2 := if (data.length : ℚ) > maxDataPoints then data.drop 1 else data
  ({ s3 with simulationData := data2 }, state)

/-- Embedding of `VentilatorSimulation.getData`. -/
def VentilatorSimulation.getData (s : VentilatorSimulation) : List SimState :=
  s.simulationData

/-- Repeated ticking of the basic model: each call applies `calculateLungState`
with the pressure held at `P`, `d` seconds after the previously recorded
time (the constant-pressure scenario of the steady-state check). -/
def basicRun (expFn : ℚ → ℚ) (P d : ℚ) : ℕ → BasicPatientModel → BasicPatientModel
  | 0, m => m
  | n + 1, m => basicRun expFn P d n ((m.calculateLungState expFn P (m.lastTime + d)).1)

/-- Invariant maintained by the engine's bounded snapshot history at the fixed
0.01 s tick the source uses: at most `10 / timeStep = 1000` entries, entries
in nondecreasing simulation-time order, and no entry later than the current
simulation time. -/
def histInv (s : VentilatorSimulation) : Prop :=
  s.timeStep = 0.01 ∧
  s.simulationData.length ≤ 1000 ∧
  List.Pairwise (fun a b => a.time ≤ b.time) s.simulationData ∧
  ∀ x ∈ s.simulationData, x.time ≤ s.currentTime

/-- JavaScript `a % b` is nonnegative for nonnegative `a` and positive `b`. -/
theorem jsMod_nonneg (a b : ℚ) (ha : 0 ≤ a) (hb : 0 < b) : 0 ≤ jsMod a b := by
  have hq : (0 : ℚ) ≤ a / b := div_nonneg ha hb.le
  unfold jsMod ratTrunc
  rw [if_pos hq]
  have h1 : ((⌊a / b⌋ : ℤ) : ℚ) ≤ a / b := Int.floor_le _
  have h2 : b * ((⌊a / b⌋ : ℤ) : ℚ) ≤ b * (a / b) := mul_le_mul_of_nonneg_left h1 hb.le
  have h3 : b * (a / b) = a := by field_simp
  linarith

/-- One call of the basic `calculateLungState` at `lastTime + d` with `d > 0`
keeps the parameters, records the new time, and multiplies the distance of
`currentVolume` from `compliance * P` by `e^(-d/timeConstant)`. -/
theorem basicStep_spec (expFn : ℚ → ℚ) (m : BasicPatientModel) (P d : ℚ)
    (hc : m.parameters.compliance ≠ 0) (hd : 0 < d) :
    ((m.calculateLungState expFn P (m.lastTime + d)).1.parameters = m.parameters ∧
     (m.calculateLungState expFn P (m.lastTime + d)).1.lastTime = m.lastTime + d ∧
     (m.calculateLungState expFn P (m.lastTime + d)).1.currentVolume -
         m.parameters.compliance * P =
       expFn (-d / (m.parameters.resistance * m.parameters.compliance * 0.001)) *
         (m.currentVolume - m.parameters.compliance * P)) := by
  have hdt : (0 : ℚ) < m.lastTime + d - m.lastTime := by linarith
  have htv : BasicPatientModel.targetVolume m.parameters P =
      m.parameters.compliance * P := by
    unfold BasicPatientModel.targetVolume
    field_simp
    ring
  simp only [BasicPatientModel.calculateLungState]
  rw [if_pos hdt]
  refine ⟨by trivial, by trivial, ?_⟩
  simp only [htv]
  have harg : m.lastTime + d - m.lastTime = d := by ring
  rw [harg]
  ring

/-- Engine step characterization: the recorded snapshot carries the advanced
time, the time step is unchanged, and the history is the old history with the
snapshot appended, with the first entry dropped once the length exceeds
`10 / timeStep`. -/
theorem step_spec (expFn : ℚ → ℚ) (s : VentilatorSimulation) :
    (s.step expFn).2.time = s.currentTime + s.timeStep ∧
    (s.step expFn).1.currentTime = s.currentTime + s.timeStep ∧
    (s.step expFn).1.timeStep = s.timeStep ∧
    (s.step expFn).1.simulationData =
      (if ((s.simulationData ++ [(s.step expFn).2]).length : ℚ) > 10 / s.timeStep
       then (s.simulationData ++ [(s.step expFn).2]).drop 1
       else s.simulationData ++ [(s.step expFn).2]) := by
  unfold VentilatorSimulation.step
  cases h : s.useAdvancedModel <;> simp [h]

/-- C1 counterexample: in `BasicPatientModel.calculateLungState` the
steady-state target volume for the scenario `compliance = 50, resistance = 10,
residualVolume = 1000, pressure = 15` is `750`, not
`residualVolume + compliance * pressure = 1750`: the source expression
`residualVolume + compliance * (pressure - residualVolume / compliance)`
cancels to `compliance * pressure`, so the volume converges to 750, far
outside 1% of 1750. -/
theorem C1_target_volume_counterexample :
    BasicPatientModel.targetVolume
        { compliance := 50, resistance := 10, residualVolume := 1000, ibw := 70 } 15 = 750 ∧
    BasicPatientModel.targetVolume
        { compliance := 50, resistance := 10, residualVolume := 1000, ibw := 70 } 15 ≠
      1000 + 50 * 15 := by
  norm_num [BasicPatientModel.targetVolume]

/-- C3 counterexample: `updateSettings` performs no validation.  Applying the
patch `respiratoryRate = -5` (which the claim says must be rejected with the
prior settings and timing left intact) installs the new rate and recomputes
`period = -12`, changing both the settings and the derived timing of the
previously valid state (`rate = 15`, `period = 4`). -/
theorem C3_counterexample :
    (-5 : ℚ) ≤ 0 ∧
    (VentilatorModel.init.updateSettings
        { respiratoryRate := some (-5) }).settings.respiratoryRate = -5 ∧
    (VentilatorModel.init.updateSettings { respiratoryRate := some (-5) }).period = -12 ∧
    VentilatorModel.init.settings.respiratoryRate = 15 ∧
    VentilatorModel.init.period = 4 := by
  norm_num [VentilatorModel.updateSettings, mergeSettings, VentilatorModel.init,
    defaultSettings]

/-- C6: for the unit count 10 that the program constructs, the ARDS severe
preset consolidates a strictly higher fraction of units than ARDS mild
(6/10 versus 2/10), and in both cases exactly the most-dorsal units — those
with position above `1 - closedUnitsPct` — are the consolidated (closed)
ones. -/
theorem C6_ards_severity_fractions :
    ((((AdvancedPatientModel.init 10).setupARDSModel Severity.severe).alveolarUnits.countP
        (fun u => decide (u.pathology = Pathology.consolidated ∧ u.isOpen = false)) : ℚ) / 10 >
      (((AdvancedPatientModel.init 10).setupARDSModel Severity.mild).alveolarUnits.countP
        (fun u => decide (u.pathology = Pathology.consolidated ∧ u.isOpen = false)) : ℚ) / 10) ∧
    (∀ u ∈ ((AdvancedPatientModel.init 10).setupARDSModel Severity.mild).alveolarUnits,
      ((u.pathology = Pathology.consolidated ∧ u.isOpen = false) ↔
        u.position > 1 - (severityFactors Severity.mild).closedUnitsPct)) ∧
    (∀ u ∈ ((AdvancedPatientModel.init 10).setupARDSModel Severity.severe).alveolarUnits,
      ((u.pathology = Pathology.consolidated ∧ u.isOpen = false) ↔
        u.position > 1 - (severityFactors Severity.severe).closedUnitsPct)) := by
  norm_num [AdvancedPatientModel.setupARDSModel, AdvancedPatientModel.init, healthyLungs,
    healthyUnit, ardsUnit, severityFactors, List.range_succ, List.countP_cons]

/-- C7 counterexample: reset does not reconstruct the inactive model, and the
initial snapshot always reads the basic model's parameters.  Starting from a
fresh engine, updating the basic patient's `residualVolume` to 500 and then
switching to the advanced model leaves the mutated basic model in place, so
after `resetSimulation` the history (first snapshot included) differs from
that of a newly-constructed engine with the same (advanced) model
selection. -/
theorem C7_reset_counterexample :
    ((((VentilatorSimulation.construct.updatePatientParameters
          { residualVolume := some 500 } none none).setPatientModel
          true).resetSimulation).simulationData ≠
      (VentilatorSimulation.construct.setPatientModel true).simulationData) ∧
    ((((VentilatorSimulation.construct.updatePatientParameters
          { residualVolume := some 500 } none none).setPatientModel
          true).resetSimulation).useAdvancedModel =
      (VentilatorSimulation.construct.setPatientModel true).useAdvancedModel) := by
  have hmod0 : jsMod (0 : ℚ) 4 = 0 := by
    unfold jsMod ratTrunc
    norm_num
  have hNe : Phase.expiration ≠ Phase.inspiration := fun h => Phase.noConfusion h
  norm_num [VentilatorSimulation.construct, VentilatorSimulation.updatePatientParameters,
    VentilatorSimulation.setPatientModel, VentilatorSimulation.resetSimulation,
    VentilatorSimulation.pause, VentilatorSimulation.initData, VentilatorModel.getState,
    VentilatorModel.calculateTargetPressure, VentilatorModel.init, defaultSettings,
    BasicPatientModel.init, BasicPatientModel.updatePredictedValues,
    BasicPatientModel.updateParameters, mergeParams, hmod0, hNe]

/-- C9 counterexample: for the multi-compartment model a call with
`deltaTime = 0` does not leave `currentVolume`/`currentFlow` unchanged — the
source re-assigns them from the loop accumulators, which still hold
`residualVolume` and `0`.  Here a model holding 1050 mL (1000 residual + one
50 mL unit) and flow 5 drops to 1000 mL and flow 0. -/
theorem C9_advanced_counterexample :
    ((1 : ℚ) - (1 : ℚ) ≤ 0) ∧
    (((⟨[⟨0, 0, 5, 2, 5, true, 50, 1, Pathology.normal⟩], 1, 1050, 5, 10, 1, [], 1000⟩ :
          AdvancedPatientModel).calculateLungState (fun _ => 0) 10 1).1.currentVolume =
        1000) ∧
    (((⟨[⟨0, 0, 5, 2, 5, true, 50, 1, Pathology.normal⟩], 1, 1050, 5, 10, 1, [], 1000⟩ :
          AdvancedPatientModel).calculateLungState (fun _ => 0) 10 1).1.currentVolume ≠
        1050) ∧
    (((⟨[⟨0, 0, 5, 2, 5, true, 50, 1, Pathology.normal⟩], 1, 1050, 5, 10, 1, [], 1000⟩ :
          AdvancedPatientModel).calculateLungState (fun _ => 0) 10 1).1.currentFlow ≠ 5) := by
  norm_num [AdvancedPatientModel.calculateLungState]

/-- C10 counterexample: with the default settings (`pControl = 20 ≥ 0`,
`riseTime = 100 > 0`) the target pressure at time `-1` is `-195`, far below
`peep = 5`: JavaScript's `%` returns a negative cycle time for negative
times, so the rise-time factor is `min(1, -10) = -10`.  The bound therefore
fails for negative times and only holds for `t ≥ 0`. -/
theorem C10_counterexample :
    0 ≤ VentilatorModel.init.settings.pControl ∧
    0 < VentilatorModel.init.settings.riseTime ∧
    (VentilatorModel.init.calculateTargetPressure (-1)).2 = -195 ∧
    (VentilatorModel.init.calculateTargetPressure (-1)).2 <
      VentilatorModel.init.settings.peep := by
  have hmod : jsMod (-1 : ℚ) 4 = -1 := by
    have hc : (⌈(-1 : ℚ) / 4⌉ : ℤ) = 0 := by
      rw [Int.ceil_eq_zero_iff]; constructor <;> norm_num
    unfold jsMod ratTrunc
    rw [if_neg (by norm_num), hc]
    norm_num
  have hNe : Phase.expiration ≠ Phase.inspiration := fun h => Phase.noConfusion h
  norm_num [VentilatorModel.calculateTargetPressure, VentilatorModel.init, defaultSettings,
    hmod, hNe]

/-- C1 (amended): the steady-state target volume of the basic model equals
`compliance * pressure` (the source's `residualVolume +
compliance * (pressure - residualVolume / compliance)` cancels), and under a
constant pressure `P` with fixed positive tick `d` the distance of
`currentVolume` from `compliance * P` is multiplied by
`e^(-d/timeConstant)` each tick, so the volume converges geometrically to
`compliance * P` (750 for the documented scenario, not 1750). -/
theorem C1_steady_state (expFn : ℚ → ℚ) (m : BasicPatientModel) (P d : ℚ)
    (hc : m.parameters.compliance ≠ 0) (hd : 0 < d) :
    BasicPatientModel.targetVolume m.parameters P = m.parameters.compliance * P ∧
    ∀ n : ℕ,
      (basicRun expFn P d n m).currentVolume - m.parameters.compliance * P =
        expFn (-d / (m.parameters.resistance * m.parameters.compliance * 0.001)) ^ n *
          (m.currentVolume - m.parameters.compliance * P) := by
  constructor
  · unfold BasicPatientModel.targetVolume
    field_simp
    ring
  · intro n
    induction n generalizing m with
    | zero => simp [basicRun]
    | succ k ih =>
      obtain ⟨hparams, hlast, hvol⟩ := basicStep_spec expFn m P d hc hd
      have hc2 : ((m.calculateLungState expFn P (m.lastTime + d)).1).parameters.compliance ≠ 0 := by
        rw [hparams]; exact hc
      have hrec := ih ((m.calculateLungState expFn P (m.lastTime + d)).1) hc2
      rw [hparams] at hrec
      rw [basicRun, hrec, hvol]
      ring

/-- C1 witness: the amended theorem applied to the default basic model with
`P = 15`, tick `d = 1` and the abstract exponential valued `1/2`. -/
theorem C1_steady_state_witness :
    (BasicPatientModel.init.parameters.compliance ≠ 0 ∧ (0 : ℚ) < 1) ∧
    (BasicPatientModel.targetVolume BasicPatientModel.init.parameters 15 =
       BasicPatientModel.init.parameters.compliance * 15 ∧
     ∀ n : ℕ,
       (basicRun (fun _ => (1 : ℚ) / 2) 15 1 n BasicPatientModel.init).currentVolume -
           BasicPatientModel.init.parameters.compliance * 15 =
         ((1 : ℚ) / 2) ^ n *
           (BasicPatientModel.init.currentVolume -
             BasicPatientModel.init.parameters.compliance * 15)) :=
  ⟨⟨by norm_num [BasicPatientModel.init, BasicPatientModel.updatePredictedValues],
    by norm_num⟩,
   C1_steady_state (fun _ => (1 : ℚ) / 2) BasicPatientModel.init 15 1
     (by norm_num [BasicPatientModel.init, BasicPatientModel.updatePredictedValues])
     (by norm_num)⟩

/-- C2 (amended): the recruitment gate has hysteresis in both
implementations, but with strict comparisons in `AdvancedPatientModel`
(part_000): there a closed unit opens exactly when
`effectivePressure > openingPressure` and an open unit closes exactly when
`effectivePressure < closingPressure`; in `updateLungUnits`
(simulation-core.js) the comparisons are non-strict (`≥` / `≤`) as the claim
states.  In both, `isOpen` is otherwise unchanged, a unit never opens while
`effectivePressure` is below its opening pressure and never closes while it
is above its closing pressure. -/
theorem C2_recruitment_gate (expFn : ℚ → ℚ) (pressure deltaTime peep baseTC : ℚ)
    (numUnits : ℕ) (u : AlvUnit) (v : SimCore.SCUnit) :
    ((advUnitStep expFn pressure deltaTime u).unit.isOpen = true ↔
      (if u.isOpen then ¬(pressure - u.position * 2 < u.closingPressure)
       else pressure - u.position * 2 > u.openingPressure)) ∧
    ((SimCore.updateLungUnit expFn peep baseTC numUnits pressure deltaTime v).isOpen = true ↔
      (if v.isOpen then ¬(pressure - v.position * 5 ≤ v.closingPressure)
       else pressure - v.position * 5 ≥ v.openingPressure)) := by
  constructor
  · unfold advUnitStep
    cases hu : u.isOpen <;> simp [hu]
  · unfold SimCore.updateLungUnit
    cases hv : v.isOpen <;> simp [hv] <;> split_ifs <;> simp_all

/-- C2 counterexample: the claim says a closed unit opens exactly when
`effectivePressure ≥ openingPressure`, but in `AdvancedPatientModel` a closed
unit presented with `effectivePressure` exactly equal to its opening pressure
stays closed (the source comparison is strict). -/
theorem C2_boundary_counterexample :
    ((5 : ℚ) - (⟨0, 0, 5, 2, 5, false, 0, 1, Pathology.normal⟩ : AlvUnit).position * 2 ≥
      (⟨0, 0, 5, 2, 5, false, 0, 1, Pathology.normal⟩ : AlvUnit).openingPressure) ∧
    (advUnitStep (fun _ => 0) 5 1
      (⟨0, 0, 5, 2, 5, false, 0, 1, Pathology.normal⟩ : AlvUnit)).unit.isOpen = false := by
  constructor
  · norm_num
  · norm_num [advUnitStep]

/-- C3 (amended): `updateSettings` performs no validation at all: for every
patch, including one whose merged `respiratoryRate` or `ieRatio` is
non-positive, the merged settings are installed and the derived timing is
recomputed from them — there is no `InvalidSettings` rejection and the prior
configuration is not preserved. -/
theorem C3_invalid_settings_applied (m : VentilatorModel) (p : SettingsPatch)
    (h : (mergeSettings m.settings p).respiratoryRate ≤ 0 ∨
         (mergeSettings m.settings p).ieRatio ≤ 0) :
    (m.updateSettings p).settings = mergeSettings m.settings p ∧
    (m.updateSettings p).period = 60 / (mergeSettings m.settings p).respiratoryRate ∧
    (m.updateSettings p).inspirationTime =
      (m.updateSettings p).period *
        (1 / (1 + 1 / (mergeSettings m.settings p).ieRatio)) ∧
    (m.updateSettings p).expirationTime =
      (m.updateSettings p).period - (m.updateSettings p).inspirationTime :=
  ⟨rfl, rfl, rfl, rfl⟩

/-- C3 witness: the amended theorem applied to the default model and the
invalid patch `respiratoryRate = -5`. -/
theorem C3_invalid_settings_applied_witness :
    ((mergeSettings VentilatorModel.init.settings
        { respiratoryRate := some (-5) }).respiratoryRate ≤ 0 ∨
     (mergeSettings VentilatorModel.init.settings
        { respiratoryRate := some (-5) }).ieRatio ≤ 0) ∧
    ((VentilatorModel.init.updateSettings { respiratoryRate := some (-5) }).settings =
       mergeSettings VentilatorModel.init.settings { respiratoryRate := some (-5) } ∧
     (VentilatorModel.init.updateSettings { respiratoryRate := some (-5) }).period =
       60 / (mergeSettings VentilatorModel.init.settings
         { respiratoryRate := some (-5) }).respiratoryRate ∧
     (VentilatorModel.init.updateSettings { respiratoryRate := some (-5) }).inspirationTime =
       (VentilatorModel.init.updateSettings { respiratoryRate := some (-5) }).period *
         (1 / (1 + 1 / (mergeSettings VentilatorModel.init.settings
           { respiratoryRate := some (-5) }).ieRatio)) ∧
     (VentilatorModel.init.updateSettings { respiratoryRate := some (-5) }).expirationTime =
       (VentilatorModel.init.updateSettings { respiratoryRate := some (-5) }).period -
         (VentilatorModel.init.updateSettings
           { respiratoryRate := some (-5) }).inspirationTime) :=
  ⟨Or.inl (by norm_num [mergeSettings, VentilatorModel.init, defaultSettings]),
   C3_invalid_settings_applied VentilatorModel.init { respiratoryRate := some (-5) }
     (Or.inl (by norm_num [mergeSettings, VentilatorModel.init, defaultSettings]))⟩

/-- C4: for every settings update whose merged `respiratoryRate` and `ieRatio`
are positive, the derived timing satisfies `period = 60 / respiratoryRate`,
`inspirationTime = period * (ieRatio / (ieRatio + 1))`, and
`inspirationTime + expirationTime = period` exactly (rational arithmetic);
the same identities hold, in milliseconds, for `calculateBreathTiming` in
simulation-core.js. -/
theorem C4_derived_timing (m : VentilatorModel) (p : SettingsPatch)
    (s : SimCore.SCSettings)
    (hr : 0 < (mergeSettings m.settings p).respiratoryRate)
    (hi : 0 < (mergeSettings m.settings p).ieRatio)
    (hr2 : 0 < s.rate) (hi2 : 0 < s.ieRatio) :
    ((m.updateSettings p).period = 60 / (m.updateSettings p).settings.respiratoryRate ∧
     (m.updateSettings p).inspirationTime =
       (m.updateSettings p).period *
         ((m.updateSettings p).settings.ieRatio /
           ((m.updateSettings p).settings.ieRatio + 1)) ∧
     (m.updateSettings p).inspirationTime + (m.updateSettings p).expirationTime =
       (m.updateSettings p).period) ∧
    ((SimCore.calculateBreathTiming s).totalBreathTime = 60 / s.rate * 1000 ∧
     (SimCore.calculateBreathTiming s).inspirationTime =
       (SimCore.calculateBreathTiming s).totalBreathTime * (s.ieRatio / (s.ieRatio + 1)) ∧
     (SimCore.calculateBreathTiming s).inspirationTime +
         (SimCore.calculateBreathTiming s).expirationTime =
       (SimCore.calculateBreathTiming s).totalBreathTime) := by
  have hie : (mergeSettings m.settings p).ieRatio ≠ 0 := ne_of_gt hi
  have h1 : (mergeSettings m.settings p).ieRatio + 1 ≠ 0 := by positivity
  have hfrac : (1 : ℚ) / (1 + 1 / (mergeSettings m.settings p).ieRatio) =
      (mergeSettings m.settings p).ieRatio / ((mergeSettings m.settings p).ieRatio + 1) := by
    field_simp
  constructor
  · refine ⟨rfl, ?_, ?_⟩
    · simp only [VentilatorModel.updateSettings]
      rw [hfrac]
    · simp only [VentilatorModel.updateSettings]
      ring
  · refine ⟨rfl, rfl, ?_⟩
    simp only [SimCore.calculateBreathTiming]
    ring

/-- C4 witness: the theorem applied to the default model with the patch
`respiratoryRate = 15, ieRatio = 0.5` and the default simulation-core
settings, together with the scenario values `period = 4 s`,
`inspirationTime = 4/3 s`, `expirationTime = 8/3 s`. -/
theorem C4_derived_timing_witness :
    (0 < (mergeSettings VentilatorModel.init.settings
        { respiratoryRate := some 15, ieRatio := some 0.5 }).respiratoryRate ∧
     0 < (mergeSettings VentilatorModel.init.settings
        { respiratoryRate := some 15, ieRatio := some 0.5 }).ieRatio ∧
     0 < SimCore.defaultSCSettings.rate ∧ 0 < SimCore.defaultSCSettings.ieRatio) ∧
    (((VentilatorModel.init.updateSettings
         { respiratoryRate := some 15, ieRatio := some 0.5 }).period =
        60 / (VentilatorModel.init.updateSettings
         { respiratoryRate := some 15, ieRatio := some 0.5 }).settings.respiratoryRate ∧
      (VentilatorModel.init.updateSettings
         { respiratoryRate := some 15, ieRatio := some 0.5 }).inspirationTime =
        (VentilatorModel.init.updateSettings
           { respiratoryRate := some 15, ieRatio := some 0.5 }).period *
          ((VentilatorModel.init.updateSettings
             { respiratoryRate := some 15, ieRatio := some 0.5 }).settings.ieRatio /
            ((VentilatorModel.init.updateSettings
               { respiratoryRate := some 15, ieRatio := some 0.5 }).settings.ieRatio + 1)) ∧
      (VentilatorModel.init.updateSettings
         { respiratoryRate := some 15, ieRatio := some 0.5 }).inspirationTime +
          (VentilatorModel.init.updateSettings
             { respiratoryRate := some 15, ieRatio := some 0.5 }).expirationTime =
        (VentilatorModel.init.updateSettings
           { respiratoryRate := some 15, ieRatio := some 0.5 }).period) ∧
     ((SimCore.calculateBreathTiming SimCore.defaultSCSettings).totalBreathTime =
        60 / SimCore.defaultSCSettings.rate * 1000 ∧
      (SimCore.calculateBreathTiming SimCore.defaultSCSettings).inspirationTime =
        (SimCore.calculateBreathTiming SimCore.defaultSCSettings).totalBreathTime *
          (SimCore.defaultSCSettings.ieRatio / (SimCore.defaultSCSettings.ieRatio + 1)) ∧
      (SimCore.calculateBreathTiming SimCore.defaultSCSettings).inspirationTime +
          (SimCore.calculateBreathTiming SimCore.defaultSCSettings).expirationTime =
        (SimCore.calculateBreathTiming SimCore.defaultSCSettings).totalBreathTime)) ∧
    ((VentilatorModel.init.updateSettings
        { respiratoryRate := some 15, ieRatio := some 0.5 }).period = 4 ∧
     (VentilatorModel.init.updateSettings
        { respiratoryRate := some 15, ieRatio := some 0.5 }).inspirationTime = 4 / 3 ∧
     (VentilatorModel.init.updateSettings
        { respiratoryRate := some 15, ieRatio := some 0.5 }).expirationTime = 8 / 3) :=
  ⟨⟨by norm_num [mergeSettings, VentilatorModel.init, defaultSettings],
    by norm_num [mergeSettings, VentilatorModel.init, defaultSettings],
    by norm_num [SimCore.defaultSCSettings],
    by norm_num [SimCore.defaultSCSettings]⟩,
   C4_derived_timing VentilatorModel.init
     { respiratoryRate := some 15, ieRatio := some 0.5 } SimCore.defaultSCSettings
     (by norm_num [mergeSettings, VentilatorModel.init, defaultSettings])
     (by norm_num [mergeSettings, VentilatorModel.init, defaultSettings])
     (by norm_num [SimCore.defaultSCSettings])
     (by norm_num [SimCore.defaultSCSettings]),
   by norm_num [VentilatorModel.updateSettings, mergeSettings, VentilatorModel.init,
     defaultSettings]⟩

/-- C5: whenever `cycleTime = t mod period < inspirationTime`, the target
pressure is `peep + pControl * min 1 (cycleTime / (riseTime/1000))` (the
rise-time-gated ramp), the reported phase is Inspiration, and at
`cycleTime = 0` the result is exactly `peep`. -/
theorem C5_inspiration_ramp (m : VentilatorModel) (t : ℚ)
    (h : jsMod t m.period < m.inspirationTime) :
    (m.calculateTargetPressure t).2 =
      m.settings.peep +
        m.settings.pControl * min 1 (jsMod t m.period / (m.settings.riseTime / 1000)) ∧
    (m.calculateTargetPressure t).1.currentPhase = Phase.inspiration ∧
    (jsMod t m.period = 0 → (m.calculateTargetPressure t).2 = m.settings.peep) := by
  have hmin : min (1 : ℚ) 0 = 0 := min_eq_right zero_le_one
  unfold VentilatorModel.calculateTargetPressure
  simp only [gt_iff_lt]
  rw [if_pos (by simpa using h)]
  by_cases hph : m.currentPhase ≠ Phase.inspiration
  · simp [hph]
    intro h0
    rw [h0]
    simp [hmin]
  · simp [hph]
    rw [not_ne_iff] at hph
    refine ⟨hph, ?_⟩
    intro h0
    rw [h0]
    simp [hmin]

/-- C5 witness: the theorem applied to the default model at `t = 0` (cycle
time 0, inside inspiration), where the returned pressure is `peep`. -/
theorem C5_inspiration_ramp_witness :
    jsMod 0 VentilatorModel.init.period < VentilatorModel.init.inspirationTime ∧
    ((VentilatorModel.init.calculateTargetPressure 0).2 =
       VentilatorModel.init.settings.peep +
         VentilatorModel.init.settings.pControl *
           min 1 (jsMod 0 VentilatorModel.init.period /
             (VentilatorModel.init.settings.riseTime / 1000)) ∧
     (VentilatorModel.init.calculateTargetPressure 0).1.currentPhase = Phase.inspiration ∧
     (jsMod 0 VentilatorModel.init.period = 0 →
       (VentilatorModel.init.calculateTargetPressure 0).2 =
         VentilatorModel.init.settings.peep)) :=
  ⟨by norm_num [jsMod, ratTrunc, VentilatorModel.init, defaultSettings],
   C5_inspiration_ramp VentilatorModel.init 0
     (by norm_num [jsMod, ratTrunc, VentilatorModel.init, defaultSettings])⟩

/-- C7 (amended): `resetSimulation` zeroes `currentTime`, clears the history
to the single initial snapshot, and reconstructs the generator and the
active model; the inactive model is retained, and the initial snapshot is
built from the basic model's parameters.  Consequently, when the basic model
is active, the reset engine's time, generator, active model and history are
identical to a newly-constructed engine's; in advanced mode the first
snapshot can differ (see the counterexample). -/
theorem C7_reset_basic_mode (s : VentilatorSimulation) (h : s.useAdvancedModel = false) :
    s.resetSimulation.currentTime = 0 ∧
    s.resetSimulation.currentTime = VentilatorSimulation.construct.currentTime ∧
    s.resetSimulation.ventilator = VentilatorSimulation.construct.ventilator ∧
    s.resetSimulation.patient = VentilatorSimulation.construct.patient ∧
    s.resetSimulation.simulationData = VentilatorSimulation.construct.simulationData ∧
    s.resetSimulation.useAdvancedModel = false := by
  unfold VentilatorSimulation.resetSimulation VentilatorSimulation.pause
    VentilatorSimulation.construct VentilatorSimulation.initData
  simp [h]

/-- C7 witness: the amended theorem applied to a freshly-constructed engine
(which selects the basic model). -/
theorem C7_reset_basic_mode_witness :
    VentilatorSimulation.construct.useAdvancedModel = false ∧
    (VentilatorSimulation.construct.resetSimulation.currentTime = 0 ∧
     VentilatorSimulation.construct.resetSimulation.currentTime =
       VentilatorSimulation.construct.currentTime ∧
     VentilatorSimulation.construct.resetSimulation.ventilator =
       VentilatorSimulation.construct.ventilator ∧
     VentilatorSimulation.construct.resetSimulation.patient =
       VentilatorSimulation.construct.patient ∧
     VentilatorSimulation.construct.resetSimulation.simulationData =
       VentilatorSimulation.construct.simulationData ∧
     VentilatorSimulation.construct.resetSimulation.useAdvancedModel = false) :=
  ⟨rfl, C7_reset_basic_mode VentilatorSimulation.construct rfl⟩

/-- C8: the snapshot history is bounded and ordered.  The invariant — at most
`10 / timeStep = 1000` entries, nondecreasing times, entries no later than
the current time — holds for a fresh engine and is preserved by every step;
the head of a sorted history is its oldest entry; and when the history is
full (1000 entries) the step drops exactly that head while appending the new
snapshot. -/
theorem C8_bounded_ordered_history :
    histInv VentilatorSimulation.construct ∧
    ∀ (expFn : ℚ → ℚ) (s : VentilatorSimulation), histInv s →
      histInv (s.step expFn).1 ∧
      (∀ h0 ∈ s.simulationData.head?, ∀ x ∈ s.simulationData, h0.time ≤ x.time) ∧
      (s.simulationData.length = 1000 →
        (s.step expFn).1.simulationData = s.simulationData.tail ++ [(s.step expFn).2]) := by
  constructor
  · refine ⟨rfl, ?_, ?_, ?_⟩
    · norm_num [VentilatorSimulation.construct, VentilatorSimulation.initData]
    · norm_num [VentilatorSimulation.construct, VentilatorSimulation.initData]
    · intro x hx
      norm_num [VentilatorSimulation.construct, VentilatorSimulation.initData] at hx ⊢
      rw [hx]
  · intro expFn s hinv
    obtain ⟨hts, hlen, hpw, hle⟩ := hinv
    obtain ⟨hsttime, hct, hts2, hdata⟩ := step_spec expFn s
    have hstep_pos : (0 : ℚ) < s.timeStep := by rw [hts]; norm_num
    have h1000 : (10 : ℚ) / s.timeStep = 1000 := by rw [hts]; norm_num
    have hlen_app : (s.simulationData ++ [(s.step expFn).2]).length =
        s.simulationData.length + 1 := by simp
    have hcond : (((s.simulationData ++ [(s.step expFn).2]).length : ℚ) > 10 / s.timeStep) ↔
        s.simulationData.length + 1 > 1000 := by
      rw [h1000, hlen_app]
      constructor
      · intro h; exact_mod_cast h
      · intro h; exact_mod_cast h
    have hnewmem : ∀ x ∈ s.simulationData ++ [(s.step expFn).2],
        x.time ≤ s.currentTime + s.timeStep := by
      intro x hx
      rcases List.mem_append.mp hx with hx | hx
      · have := hle x hx; linarith
      · rw [List.mem_singleton.mp hx, hsttime]
    have hnewpw : List.Pairwise (fun a b => a.time ≤ b.time)
        (s.simulationData ++ [(s.step expFn).2]) := by
      refine List.pairwise_append.mpr ⟨hpw, List.pairwise_singleton _ _, ?_⟩
      intro a ha b hb
      rw [List.mem_singleton.mp hb, hsttime]
      have := hle a ha
      linarith
    have holdest : ∀ h0 ∈ s.simulationData.head?, ∀ x ∈ s.simulationData,
        h0.time ≤ x.time := by
      cases hsd : s.simulationData with
      | nil => simp
      | cons a l =>
        intro h0 hh0 x hx
        rw [List.head?_cons, Option.mem_some_iff] at hh0
        rw [← hh0]
        rcases List.mem_cons.mp hx with rfl | hx
        · exact le_refl _
        · rw [hsd] at hpw
          exact (List.pairwise_cons.mp hpw).1 x hx
    by_cases hfull : s.simulationData.length + 1 > 1000
    · have hdrop : (s.step expFn).1.simulationData =
          (s.simulationData ++ [(s.step expFn).2]).drop 1 := by
        rw [hdata, if_pos (hcond.mpr hfull)]
      have hdropeq : (s.simulationData ++ [(s.step expFn).2]).drop 1 =
          s.simulationData.drop 1 ++ [(s.step expFn).2] := by
        apply List.drop_append_of_le_length
        omega
      refine ⟨⟨by rw [hts2, hts], ?_, ?_, ?_⟩, holdest, ?_⟩
      · rw [hdrop, hdropeq]
        simp only [List.length_append, List.length_drop, List.length_singleton]
        omega
      · rw [hdrop]
        exact hnewpw.sublist (List.drop_sublist 1 _)
      · intro x hx
        rw [hdrop] at hx
        rw [hct]
        exact hnewmem x (List.mem_of_mem_drop hx)
      · intro hfull2
        rw [hdrop, hdropeq, List.drop_one]
    · have hkeep : (s.step expFn).1.simulationData =
          s.simulationData ++ [(s.step expFn).2] := by
        rw [hdata, if_neg]
        rw [hcond]
        exact hfull
      refine ⟨⟨by rw [hts2, hts], ?_, ?_, ?_⟩, holdest, ?_⟩
      · rw [hkeep, hlen_app]; omega
      · rw [hkeep]; exact hnewpw
      · intro x hx
        rw [hkeep] at hx
        rw [hct]
        exact hnewmem x hx
      · intro hfull2
        omega

/-- C8 witness: the history invariant holds for a fresh engine and, by the
theorem, after one step of that engine. -/
theorem C8_bounded_ordered_history_witness :
    histInv VentilatorSimulation.construct ∧
    histInv ((VentilatorSimulation.construct.step (fun _ => 0)).1) :=
  ⟨C8_bounded_ordered_history.1,
   (C8_bounded_ordered_history.2 (fun _ => 0) VentilatorSimulation.construct
      C8_bounded_ordered_history.1).1⟩

/-- C9 (amended): with `deltaTime ≤ 0` the basic model leaves `currentVolume`
and `currentFlow` unchanged and returns the prior values while recording the
supplied pressure and time; the advanced model leaves every unit (and the
stale `unitStates`) unchanged and records pressure and time, but re-assigns
`currentVolume := residualVolume` and `currentFlow := 0` instead of keeping
the prior values. -/
theorem C9_frozen_time_update (expFn : ℚ → ℚ) (mb : BasicPatientModel)
    (ma : AdvancedPatientModel) (p t q t2 : ℚ)
    (hb : t - mb.lastTime ≤ 0) (ha : t2 - ma.lastTime ≤ 0) :
    ((mb.calculateLungState expFn p t).1.currentVolume = mb.currentVolume ∧
     (mb.calculateLungState expFn p t).1.currentFlow = mb.currentFlow ∧
     (mb.calculateLungState expFn p t).1.lastPressure = p ∧
     (mb.calculateLungState expFn p t).1.lastTime = t ∧
     (mb.calculateLungState expFn p t).2.volume = mb.currentVolume ∧
     (mb.calculateLungState expFn p t).2.flow = mb.currentFlow) ∧
    ((ma.calculateLungState expFn q t2).1.alveolarUnits = ma.alveolarUnits ∧
     (ma.calculateLungState expFn q t2).1.unitStates = ma.unitStates ∧
     (ma.calculateLungState expFn q t2).1.lastPressure = q ∧
     (ma.calculateLungState expFn q t2).1.lastTime = t2 ∧
     (ma.calculateLungState expFn q t2).1.currentVolume = ma.residualVolume ∧
     (ma.calculateLungState expFn q t2).1.currentFlow = 0) := by
  have hb2 : ¬(0 < t - mb.lastTime) := not_lt.mpr hb
  have ha2 : ¬(0 < t2 - ma.lastTime) := not_lt.mpr ha
  unfold BasicPatientModel.calculateLungState AdvancedPatientModel.calculateLungState
  simp [hb2, ha2]

/-- C9 witness: the amended theorem applied to the freshly-constructed models
called again at their recorded time 0. -/
theorem C9_frozen_time_update_witness :
    ((0 : ℚ) - BasicPatientModel.init.lastTime ≤ 0 ∧
     (0 : ℚ) - (AdvancedPatientModel.init 10).lastTime ≤ 0) ∧
    (((BasicPatientModel.init.calculateLungState (fun _ => 0) 5 0).1.currentVolume =
        BasicPatientModel.init.currentVolume ∧
      (BasicPatientModel.init.calculateLungState (fun _ => 0) 5 0).1.currentFlow =
        BasicPatientModel.init.currentFlow ∧
      (BasicPatientModel.init.calculateLungState (fun _ => 0) 5 0).1.lastPressure = 5 ∧
      (BasicPatientModel.init.calculateLungState (fun _ => 0) 5 0).1.lastTime = 0 ∧
      (BasicPatientModel.init.calculateLungState (fun _ => 0) 5 0).2.volume =
        BasicPatientModel.init.currentVolume ∧
      (BasicPatientModel.init.calculateLungState (fun _ => 0) 5 0).2.flow =
        BasicPatientModel.init.currentFlow) ∧
     (((AdvancedPatientModel.init 10).calculateLungState (fun _ => 0) 5 0).1.alveolarUnits =
        (AdvancedPatientModel.init 10).alveolarUnits ∧
      ((AdvancedPatientModel.init 10).calculateLungState (fun _ => 0) 5 0).1.unitStates =
        (AdvancedPatientModel.init 10).unitStates ∧
      ((AdvancedPatientModel.init 10).calculateLungState (fun _ => 0) 5 0).1.lastPressure = 5 ∧
      ((AdvancedPatientModel.init 10).calculateLungState (fun _ => 0) 5 0).1.lastTime = 0 ∧
      ((AdvancedPatientModel.init 10).calculateLungState (fun _ => 0) 5 0).1.currentVolume =
        (AdvancedPatientModel.init 10).residualVolume ∧
      ((AdvancedPatientModel.init 10).calculateLungState (fun _ => 0) 5 0).1.currentFlow = 0)) :=
  ⟨⟨by norm_num [BasicPatientModel.init, BasicPatientModel.updatePredictedValues],
    by norm_num [AdvancedPatientModel.init]⟩,
   C9_frozen_time_update (fun _ => 0) BasicPatientModel.init
     (AdvancedPatientModel.init 10) 5 0 5 0
     (by norm_num [BasicPatientModel.init, BasicPatientModel.updatePredictedValues])
     (by norm_num [AdvancedPatientModel.init])⟩

/-- C10 (amended): for a model whose derived timing matches its settings, with
`respiratoryRate > 0`, `pControl ≥ 0`, `riseTime > 0`, and for every time
`t ≥ 0`, the target pressure lies between `peep` and `peep + pControl`, and
during expiration (`cycleTime ≥ inspirationTime`) it equals `peep` exactly.
For negative times the bound fails (see the counterexample). -/
theorem C10_pressure_bounds (m : VentilatorModel) (t : ℚ)
    (hper : m.period = 60 / m.settings.respiratoryRate)
    (hrate : 0 < m.settings.respiratoryRate)
    (hpc : 0 ≤ m.settings.pControl)
    (hrise : 0 < m.settings.riseTime)
    (ht : 0 ≤ t) :
    m.settings.peep ≤ (m.calculateTargetPressure t).2 ∧
    (m.calculateTargetPressure t).2 ≤ m.settings.peep + m.settings.pControl ∧
    (m.inspirationTime ≤ jsMod t m.period →
      (m.calculateTargetPressure t).2 = m.settings.peep) := by
  have hp : 0 < m.period := by rw [hper]; positivity
  have hcy : 0 ≤ jsMod t m.period := jsMod_nonneg t m.period ht hp
  have hrs : (0 : ℚ) < m.settings.riseTime / 1000 := by positivity
  have hfac0 : 0 ≤ min 1 (jsMod t m.period / (m.settings.riseTime / 1000)) :=
    le_min zero_le_one (div_nonneg hcy hrs.le)
  have hfac1 : min 1 (jsMod t m.period / (m.settings.riseTime / 1000)) ≤ 1 :=
    min_le_left _ _
  have hmul0 : 0 ≤ m.settings.pControl *
      min 1 (jsMod t m.period / (m.settings.riseTime / 1000)) :=
    mul_nonneg hpc hfac0
  have hmul1 : m.settings.pControl *
      min 1 (jsMod t m.period / (m.settings.riseTime / 1000)) ≤ m.settings.pControl := by
    calc m.settings.pControl * min 1 (jsMod t m.period / (m.settings.riseTime / 1000)) ≤
        m.settings.pControl * 1 := mul_le_mul_of_nonneg_left hfac1 hpc
      _ = m.settings.pControl := mul_one _
  have hle : m.settings.peep ≤ m.settings.peep + m.settings.pControl := by linarith
  by_cases hbr : jsMod t m.period < m.inspirationTime
  · unfold VentilatorModel.calculateTargetPressure
    rw [if_pos (by simpa using hbr)]
    split_ifs <;>
      exact ⟨by simpa using hmul0, by simpa using hmul1,
        fun habs => absurd hbr (not_lt.mpr habs)⟩
  · unfold VentilatorModel.calculateTargetPressure
    rw [if_neg (by simpa using hbr)]
    split_ifs <;>
      exact ⟨le_refl _, hle, fun _ => rfl⟩

/-- C10 witness: the amended theorem applied to the default model at
`t = 0`. -/
theorem C10_pressure_bounds_witness :
    (VentilatorModel.init.period = 60 / VentilatorModel.init.settings.respiratoryRate ∧
     0 < VentilatorModel.init.settings.respiratoryRate ∧
     0 ≤ VentilatorModel.init.settings.pControl ∧
     0 < VentilatorModel.init.settings.riseTime ∧ (0 : ℚ) ≤ 0) ∧
    (VentilatorModel.init.settings.peep ≤
       (VentilatorModel.init.calculateTargetPressure 0).2 ∧
     (VentilatorModel.init.calculateTargetPressure 0).2 ≤
       VentilatorModel.init.settings.peep + VentilatorModel.init.settings.pControl ∧
     (VentilatorModel.init.inspirationTime ≤ jsMod 0 VentilatorModel.init.period →
       (VentilatorModel.init.calculateTargetPressure 0).2 =
         VentilatorModel.init.settings.peep)) :=
  ⟨⟨rfl, by norm_num [VentilatorModel.init, defaultSettings],
    by norm_num [VentilatorModel.init, defaultSettings],
    by norm_num [VentilatorModel.init, defaultSettings], le_refl 0⟩,
   C10_pressure_bounds VentilatorModel.init 0 rfl
     (by norm_num [VentilatorModel.init, defaultSettings])
     (by norm_num [VentilatorModel.init, defaultSettings])
     (by norm_num [VentilatorModel.init, defaultSettings]) (le_refl 0)⟩

end VentSim


